import Mathlib

/-!
Verification development for the portfolio monitor web application
(src/portfolio_web_app.py).

Modelling conventions (shallow embedding):

* Python strings are modelled as lists of Unicode code points
  (`PyStr := List Nat`); `str.strip` and `str.upper` are embedded as
  `pyStrip` and `pyUpper` below (the ASCII fragment relevant to ticker
  symbols and whitespace).
* Prices and thresholds are modelled as exact rationals (`ℚ`); Python's
  `round(x, 2)`, which rounds half to even, is embedded as `round2`.
* The yfinance market-data call is an oracle
  `fetch : Nat → PyStr → Option (List PricePoint)` taking the configured
  lookback in days and the symbol; `none` models both a raised exception
  and any transport failure (`get_stock_data` catches exceptions and
  returns `None`).  Dates carried by the DataFrame index are modelled as
  already-formatted strings (the source formats them with
  `strftime('%Y-%m-%d')`).
* The SMTP transport of `send_email_alert` is an oracle returning
  `Option Unit`; `none` models a raised exception, which the source
  catches and converts into the return value `False`.
* Fallible Python code paths are embedded with `Option`; all embedded
  functions are total, mirroring the fact that the corresponding source
  paths catch their exceptions.
-/

/-- Python strings as lists of Unicode code points. -/
abbrev PyStr := List Nat

/-- Whitespace test used by Python's `str.strip()` (the ASCII whitespace
characters: space, tab, line feed, carriage return). -/
def isWsCode (c : Nat) : Bool := decide (c = 32 ∨ c = 9 ∨ c = 10 ∨ c = 13)

/-- One character of Python's `str.upper()` on the ASCII range: lowercase
letters (codes 97–122) map down by 32, everything else is unchanged. -/
def pyUpperCode (c : Nat) : Nat := if 97 ≤ c ∧ c ≤ 122 then c - 32 else c

/-- Python's `str.upper()`. -/
def pyUpper (s : PyStr) : PyStr := s.map pyUpperCode

/-- Python's `str.strip()`: drop leading whitespace, then trailing
whitespace (implemented by reversing, dropping, and reversing back). -/
def pyStrip (s : PyStr) : PyStr :=
  (((s.dropWhile isWsCode).reverse.dropWhile isWsCode)).reverse

/-- Python's `str.split(sep)` for a single-character separator, applied to
a code-point list.  `split` on an empty string yields `[""]`, matching
Python. -/
def pySplitOn (sep : Nat) : PyStr → List PyStr
  | [] => [[]]
  | c :: rest =>
    let r := pySplitOn sep rest
    if c = sep then [] :: r
    else
      match r with
      | [] => [[c]]
      | t :: ts => (c :: t) :: ts

/-- Round a rational half to even to an integer, as Python's `round`
does. -/
def rhe (q : ℚ) : ℤ :=
  let f := ⌊q⌋
  if q - f < 1/2 then f
  else if q - f > 1/2 then f + 1
  else if f % 2 = 0 then f else f + 1

/-- Python's `round(x, 2)` on exact rationals: round `100 * x` half to
even and scale back. -/
def round2 (q : ℚ) : ℚ := (rhe (q * 100) : ℚ) / 100

/-- One row of the yfinance price DataFrame.  Only the columns the
application reads are modelled: the date index (already formatted as by
`strftime('%Y-%m-%d')`), `High` and `Close`.  `Open`, `Low` and `Volume`
are never read by the monitor. -/
structure PricePoint where
  date : PyStr
  high : ℚ
  close : ℚ
deriving DecidableEq

/-- `delta = close_series.diff()` restricted to its non-NA entries: the
successive differences `closes[i+1] - closes[i]`.  (`diff` puts NA at
index 0; that entry never falls inside the trailing window used below
when `len(closes) ≥ period + 1`.) -/
def rsiDeltas (closes : List ℚ) : List ℚ :=
  (closes.tail.zip closes).map (fun p => p.1 - p.2)

/-- The trailing window of length `period` that
`rolling(window=period, min_periods=period)` sees at the last index. -/
def rsiWindow (period : ℕ) (closes : List ℚ) : List ℚ :=
  (rsiDeltas closes).drop ((rsiDeltas closes).length - period)

/-- `avg_gain` at the last index: mean of `delta.clip(lower=0)` over the
trailing window. -/
def avg_gain (closes : List ℚ) (period : ℕ) : ℚ :=
  ((rsiWindow period closes).map (fun d => max d 0)).sum / period

/-- `avg_loss` at the last index: mean of `-delta.clip(upper=0)` over the
trailing window. -/
def avg_loss (closes : List ℚ) (period : ℕ) : ℚ :=
  ((rsiWindow period closes).map (fun d => max (-d) 0)).sum / period

/-- `compute_rsi` (source lines 53–69).  Returns `none` when the series
has fewer than `period + 1` points.  When `avg_loss` is exactly zero,
`avg_loss.replace(0, pd.NA)` makes `rs` and hence `rsi.iloc[-1]` NA, and
the `pd.notna` guard turns that into `None`.  Otherwise the last RSI
value, rounded to two decimals, is returned.  The `try/except` wrapper
never fires on this arithmetic (with `avg_loss ≠ 0`, `rs ≥ 0`, so
`1 + rs ≠ 0`). -/
def compute_rsi (closes : List ℚ) (period : ℕ := 14) : Option ℚ :=
  if closes.length < period + 1 then none
  else if avg_loss closes period = 0 then none
  else
    let rs := avg_gain closes period / avg_loss closes period
    some (round2 (100 - 100 / (1 + rs)))

/-- The `email_settings` dictionary.  The three credential fields are
`Option`-valued because `send_email_alert` tests for the *presence* of
their keys in the dictionary. -/
structure EmailSettings where
  enabled : Bool
  smtp_server : PyStr
  smtp_port : ℕ
  sender_email : Option PyStr
  sender_password : Option PyStr
  recipient_email : Option PyStr
deriving DecidableEq

/-- A thesis entry ({ticker, thesis, trigger, created_at}). -/
structure ThesisEntry where
  ticker : PyStr
  thesis : PyStr
  trigger : PyStr
  created_at : PyStr
deriving DecidableEq

/-- The configuration dictionary (the fields the monitor core reads). -/
structure Config where
  stocks : List PyStr
  alert_threshold : ℚ
  lookback_days : ℕ
  scan_interval_minutes : ℕ
  tradingview_url : PyStr
  thesis_entries : List ThesisEntry
  email_settings : EmailSettings
deriving DecidableEq

/-- The alert dictionary built by `check_stock_alert`. -/
structure AlertResult where
  symbol : PyStr
  current_price : ℚ
  recent_high : ℚ
  pct_from_high : ℚ
  is_alert : Bool
  date_of_high : PyStr
  status : PyStr
  rsi : Option ℚ
deriving DecidableEq

/-- The code points of the status string "🚨 ALERT". -/
def strALERT : PyStr := [128680, 32, 65, 76, 69, 82, 84]

/-- The code points of the status string "✅ OK". -/
def strOK : PyStr := [9989, 32, 79, 75]

/-- `get_stock_data` (source lines 78–93): call the market-data oracle
with the configured lookback; a raised exception (modelled by the oracle
returning `none`) and an empty DataFrame both yield `None`. -/
def get_stock_data (fetch : ℕ → PyStr → Option (List PricePoint))
    (cfg : Config) (symbol : PyStr) : Option (List PricePoint) :=
  match fetch cfg.lookback_days symbol with
  | none => none
  | some data => if data = [] then none else some data

/-- `data['Close'].iloc[-1]`.  `get_stock_data` never returns an empty
frame, so the default value for the empty list is unreachable. -/
def currentPrice (data : List PricePoint) : ℚ :=
  ((data.getLast?).map PricePoint.close).getD 0

/-- `data['High'].max()`.  As above, the empty-list default is
unreachable. -/
def recentHigh (data : List PricePoint) : ℚ :=
  ((data.map PricePoint.high).max?).getD 0

/-- `data.loc[data['High'] == recent_high].index[-1].strftime('%Y-%m-%d')`:
the date of the last row whose high equals the maximum.  The maximum is
attained on a nonempty frame, so the default is unreachable. -/
def dateOfHigh (data : List PricePoint) : PyStr :=
  (((data.filter (fun p => decide (p.high = recentHigh data))).getLast?).map
    PricePoint.date).getD []

/-- The body of `check_stock_alert` (source lines 101–121) for a frame
returned by `get_stock_data`. -/
def evalResult (cfg : Config) (symbol : PyStr) (data : List PricePoint) :
    AlertResult :=
  let current_price := currentPrice data
  let recent_high := recentHigh data
  -- alert_threshold is taken as abs() of the configured value
  let alert_threshold := |cfg.alert_threshold|
  let rsi_value := compute_rsi (data.map PricePoint.close) 14
  let pct_change := (current_price - recent_high) / recent_high
  -- trigger when the (unrounded) drop meets or exceeds the threshold
  let is_alert : Bool := decide (pct_change ≤ -alert_threshold)
  { symbol := symbol
    current_price := round2 current_price
    recent_high := round2 recent_high
    pct_from_high := round2 (pct_change * 100)
    is_alert := is_alert
    date_of_high := dateOfHigh data
    status := if is_alert then strALERT else strOK
    rsi := rsi_value }

/-- `check_stock_alert` (source lines 95–121): `None` when
`get_stock_data` fails, otherwise the alert dictionary. -/
def check_stock_alert (fetch : ℕ → PyStr → Option (List PricePoint))
    (cfg : Config) (symbol : PyStr) : Option AlertResult :=
  match get_stock_data fetch cfg symbol with
  | none => none
  | some data => some (evalResult cfg symbol data)

/-- The single message assembled by `send_email_alert`: one subject line
counting the alerts, and a body enumerating the whole batch (line
formatting of prices is presentation only; the message carries the full
alert list). -/
structure EmailMessage where
  subject_count : ℕ
  alerts : List AlertResult
deriving DecidableEq

/-- `send_email_alert` (source lines 144–174).  Returns `False` without
touching the transport when email is disabled or any credential key is
missing; otherwise performs exactly one SMTP send of the batch message.
A transport exception (the oracle returning `none`) is caught and
converted to `False` — it is never re-raised. -/
def send_email_alert (smtp : EmailMessage → Option Unit) (cfg : Config)
    (alerts : List AlertResult) : Bool :=
  let email_config := cfg.email_settings
  if ¬email_config.enabled ∨ email_config.sender_email = none ∨
      email_config.sender_password = none ∨ email_config.recipient_email = none
  then false
  else
    match smtp { subject_count := alerts.length, alerts := alerts } with
    | some _ => true
    | none => false

/-- The accumulation loop of `scan_portfolio` (source lines 128–133):
walk the configured symbols in order, appending each successful check to
`results` and, when it alerts, to `alerts`.  Symbols whose check returns
`None` are skipped. -/
def scan_collect (fetch : ℕ → PyStr → Option (List PricePoint))
    (cfg : Config) : List PyStr → List AlertResult × List AlertResult
  | [] => ([], [])
  | symbol :: rest =>
    match check_stock_alert fetch cfg symbol with
    | none => scan_collect fetch cfg rest
    | some result =>
      let (results, alerts) := scan_collect fetch cfg rest
      (result :: results, if result.is_alert then result :: alerts else alerts)

/-- Everything `scan_portfolio` produces: the returned pair, the
published snapshot (`last_scan_results` / `last_scan_time`), and the
email interaction (`email_invoked` is the batch handed to
`send_email_alert` when it is called, `email_result` that call's return
value). -/
structure ScanOutcome where
  alerts : List AlertResult
  results : List AlertResult
  last_scan_results : List AlertResult
  last_scan_time : Option ℕ
  email_invoked : Option (List AlertResult)
  email_result : Option Bool
deriving DecidableEq

/-- `scan_portfolio` (source lines 123–142).  The snapshot is published
before the email branch runs; `send_email_alert` is called exactly when
`alerts` is non-empty (Python truthiness) and
`email_settings.enabled` holds.  `now` models `datetime.now()`. -/
def scan_portfolio (fetch : ℕ → PyStr → Option (List PricePoint))
    (smtp : EmailMessage → Option Unit) (cfg : Config) (now : ℕ) :
    ScanOutcome :=
  let (results, alerts) := scan_collect fetch cfg cfg.stocks
  let invoke : Bool := ¬alerts.isEmpty && cfg.email_settings.enabled
  { alerts := alerts
    results := results
    last_scan_results := results
    last_scan_time := some now
    email_invoked := if invoke then some alerts else none
    email_result := if invoke then some (send_email_alert smtp cfg alerts) else none }

/-- The scheduler state: `monitoring` is the flag guarding the background
loop.  The thread handle is not modelled; the two-state machine of the
spec is exactly this flag (`False` = Stopped, `True` = Running). -/
structure MonitorState where
  monitoring : Bool
deriving DecidableEq

/-- `start_monitoring` (source lines 176–185): returns `False` and leaves
the state alone when already running, otherwise sets the flag, spawns
the loop thread, and returns `True`. -/
def start_monitoring (s : MonitorState) : MonitorState × Bool :=
  if s.monitoring then (s, false)
  else ({ monitoring := true }, true)

/-- `stop_monitoring` (source lines 187–192): clears the flag, joins the
thread with a bounded timeout, and always returns `True`. -/
def stop_monitoring (_s : MonitorState) : MonitorState × Bool :=
  ({ monitoring := false }, true)

/-- `update_stocks` (source lines 226–235): replace commas by newlines,
split on newlines, keep the fragments that are non-empty after
stripping, and store each as `fragment.strip().upper()`. -/
def update_stocks (stocks_text : PyStr) : List PyStr :=
  (pySplitOn 10 (stocks_text.map (fun c => if c = 44 then 10 else c))).filterMap
    (fun s => if pyStrip s ≠ [] then some (pyUpper (pyStrip s)) else none)

/-- In-place update of the entry at a position (Python
`entries[index]['ticker'] = ...` etc.). -/
def updateAt {α : Type} : List α → ℕ → (α → α) → List α
  | [], _, _ => []
  | x :: xs, 0, f => f x :: xs
  | x :: xs, n + 1, f => x :: updateAt xs n f

/-- `update_thesis` (source lines 323–345).  The second component
records whether `save_config` was invoked.  The route converter already
restricts `index` to non-negative integers; the handler itself re-checks
`0 <= index < len(entries)`, so the embedding takes `index : ℤ`.  An
empty (stripped) ticker or an out-of-range index leaves the entries
untouched and does not save. -/
def update_thesis (entries : List ThesisEntry) (index : ℤ)
    (ticker0 thesis0 trigger0 : PyStr) : List ThesisEntry × Bool :=
  let ticker := pyUpper (pyStrip ticker0)
  let thesis_text := pyStrip thesis0
  let trigger_text := pyStrip trigger0
  if ticker = [] then (entries, false)
  else if 0 ≤ index ∧ index < (entries.length : ℤ) then
    (updateAt entries index.toNat
      (fun e => { e with ticker := ticker, thesis := thesis_text,
                         trigger := trigger_text }), true)
  else (entries, false)

/-- `delete_thesis` (source lines 347–361): `entries.pop(index)` and a
save when the index is in range, otherwise no change and no save. -/
def delete_thesis (entries : List ThesisEntry) (index : ℤ) :
    List ThesisEntry × Bool :=
  if 0 ≤ index ∧ index < (entries.length : ℤ) then
    (entries.eraseIdx index.toNat, true)
  else (entries, false)

/-- A code-point list with no leading and no trailing whitespace: the
shape invariant produced by `str.strip()`. -/
def NoEdgeWs (l : PyStr) : Prop :=
  (∀ c, l.head? = some c → isWsCode c = false) ∧
  (∀ c, l.getLast? = some c → isWsCode c = false)

/- Concrete data used by the witnesses and counterexamples below. -/

/-- The ticker "AAA". -/
def symAAA : PyStr := [65, 65, 65]

/-- The ticker "BBB". -/
def symBBB : PyStr := [66, 66, 66]

/-- The ticker "AAPL". -/
def strAAPL : PyStr := [65, 65, 80, 76]

/-- Abstract date labels (the evaluator treats dates as opaque
already-formatted strings). -/
def dayA : PyStr := [49]

/-- Second date label. -/
def dayB : PyStr := [50]

/-- Third date label. -/
def dayC : PyStr := [51]

/-- Fourth date label. -/
def dayD : PyStr := [52]

/-- Email settings with notifications enabled and all credential keys
present. -/
def emailOn : EmailSettings :=
  ⟨true, [], 587, some [97], some [98], some [99]⟩

/-- A configuration watching AAA and BBB with a 5% threshold. -/
def cfgEx : Config := ⟨[symAAA, symBBB], 1/20, 30, 30, [], [], emailOn⟩

/-- Four-day history for AAA: the maximum high 100 is attained on dayA
and again on dayC (a tie); the last close is 90. -/
def ptsEx : List PricePoint :=
  [⟨dayA, 100, 95⟩, ⟨dayB, 90, 88⟩, ⟨dayC, 100, 98⟩, ⟨dayD, 95, 90⟩]

/-- Market data where AAA has the four-day history and every other
symbol (in particular BBB) has no data. -/
def fetchEx : ℕ → PyStr → Option (List PricePoint) :=
  fun _ s => if s = symAAA then some ptsEx else none

/-- An SMTP transport that always succeeds. -/
def smtpOk : EmailMessage → Option Unit := fun _ => some ()

/-- An SMTP transport that always raises. -/
def smtpBad : EmailMessage → Option Unit := fun _ => none

/-- One price point sitting 4.9996% below its high: the unrounded drop
is inside the 5% threshold but the percentage rounded to two decimals
is exactly -5.00. -/
def ptsNearMiss : List PricePoint := [⟨dayA, 1000000, 950004⟩]

/-- Market data serving the near-miss history for AAA. -/
def fetchNearMiss : ℕ → PyStr → Option (List PricePoint) :=
  fun _ s => if s = symAAA then some ptsNearMiss else none

/-- One price point exactly 5% below its high (threshold boundary). -/
def ptsBoundary : List PricePoint := [⟨dayA, 100, 95⟩]

/-- Market data serving the boundary history for AAA. -/
def fetchBoundary : ℕ → PyStr → Option (List PricePoint) :=
  fun _ s => if s = symAAA then some ptsBoundary else none

/-- A monotonically non-decreasing (constant) 15-point close series:
every trailing-window loss is zero. -/
def closesConst : List ℚ := [5, 5, 5, 5, 5, 5, 5, 5, 5, 5, 5, 5, 5, 5, 5]

/-- The form input "AAPL,AAPL". -/
def stocksTextDup : PyStr := [65, 65, 80, 76, 44, 65, 65, 80, 76]

/-- A thesis entry for MSFT. -/
def entryEx : ThesisEntry := ⟨[77, 83, 70, 84], [], [], []⟩

/-! ### Helper lemmas -/

/-- A series shorter than `period + 1` makes `compute_rsi` return
`none` via its length guard. -/
theorem compute_rsi_short (closes : List ℚ) (period : ℕ)
    (h : closes.length < period + 1) : compute_rsi closes period = none := by
  unfold compute_rsi
  rw [if_pos h]

/-- On a successfully fetched, nonempty history, `check_stock_alert`
returns exactly the dictionary built by `evalResult`. -/
theorem check_stock_alert_eq_some (fetch : ℕ → PyStr → Option (List PricePoint))
    (cfg : Config) (sym : PyStr) (pts : List PricePoint)
    (hf : fetch cfg.lookback_days sym = some pts) (hne : pts ≠ []) :
    check_stock_alert fetch cfg sym = some (evalResult cfg sym pts) := by
  unfold check_stock_alert get_stock_data
  rw [hf]
  simp [hne]

/-- A successful check reports the symbol it was asked about. -/
theorem symbol_of_check_eq_some (fetch : ℕ → PyStr → Option (List PricePoint))
    (cfg : Config) (s : PyStr) (r : AlertResult)
    (h : check_stock_alert fetch cfg s = some r) : r.symbol = s := by
  unfold check_stock_alert at h
  cases hg : get_stock_data fetch cfg s with
  | none => rw [hg] at h; exact absurd h (by simp)
  | some data =>
    rw [hg] at h
    simp only [Option.some.injEq] at h
    rw [← h]
    rfl

/-- The accumulation loop of `scan_portfolio` computes the `filterMap`
of the per-symbol check, and its alert list is the `is_alert` filter of
its result list. -/
theorem scan_collect_spec (fetch : ℕ → PyStr → Option (List PricePoint))
    (cfg : Config) : ∀ syms : List PyStr,
    scan_collect fetch cfg syms =
      (syms.filterMap (check_stock_alert fetch cfg),
       (syms.filterMap (check_stock_alert fetch cfg)).filter
         (fun r => r.is_alert)) := by
  intro syms
  induction syms with
  | nil => rfl
  | cons s rest ih =>
    cases hc : check_stock_alert fetch cfg s with
    | none => simp [scan_collect, hc, ih, List.filterMap_cons_none hc]
    | some r =>
      simp only [scan_collect, hc, ih, List.filterMap_cons_some hc,
        List.filter_cons]

/-- The symbols of the successful checks form a subsequence of the
scanned symbol list (configured order, nothing re-sorted). -/
theorem symbols_sublist (fetch : ℕ → PyStr → Option (List PricePoint))
    (cfg : Config) : ∀ syms : List PyStr,
    ((syms.filterMap (check_stock_alert fetch cfg)).map
      AlertResult.symbol).Sublist syms := by
  intro syms
  induction syms with
  | nil => simp
  | cons s rest ih =>
    cases hc : check_stock_alert fetch cfg s with
    | none =>
      rw [List.filterMap_cons_none hc]
      exact ih.cons s
    | some r =>
      rw [List.filterMap_cons_some hc, List.map_cons,
        symbol_of_check_eq_some fetch cfg s r hc]
      exact ih.cons₂ s

/-- The last element of a filtered list splits the original list: the
element satisfies the predicate and nothing after it does. -/
theorem getLast?_filter_split {α : Type} (p : α → Bool) (l : List α) :
    ∀ x : α, (l.filter p).getLast? = some x →
      ∃ l1 l2, l = l1 ++ x :: l2 ∧ p x = true ∧ ∀ y ∈ l2, p y = false := by
  induction l using List.reverseRecOn with
  | nil => intro x h; simp at h
  | append_singleton l a ih =>
    intro x h
    rw [List.filter_append] at h
    by_cases hpa : p a = true
    · have hfa : List.filter p [a] = [a] := by simp [hpa]
      rw [hfa, List.getLast?_concat] at h
      simp only [Option.some.injEq] at h
      subst h
      exact ⟨l, [], rfl, hpa, by simp⟩
    · have hfa : List.filter p [a] = [] := by
        simp [List.filter_cons, hpa]
      rw [hfa, List.append_nil] at h
      obtain ⟨l1, l2, hsplit, hpx, hrest⟩ := ih x h
      refine ⟨l1, l2 ++ [a], by rw [hsplit]; simp, hpx, ?_⟩
      intro y hy
      rcases List.mem_append.mp hy with hy2 | hy2
      · exact hrest y hy2
      · have : y = a := by simpa using hy2
        subst this
        exact Bool.not_eq_true _ |>.mp hpa

/-- The first element surviving `dropWhile p` fails `p`. -/
theorem dropWhile_head_not {α : Type} (p : α → Bool) :
    ∀ (l : List α) (c : α), (l.dropWhile p).head? = some c → p c = false := by
  intro l
  induction l with
  | nil => intro c h; simp [List.dropWhile] at h
  | cons a t ih =>
    intro c h
    by_cases hpa : p a = true
    · rw [List.dropWhile_cons_of_pos hpa] at h
      exact ih c h
    · rw [List.dropWhile_cons_of_neg hpa] at h
      simp only [List.head?_cons, Option.some.injEq] at h
      subst h
      exact Bool.not_eq_true _ |>.mp hpa

/-- `dropWhile` is the identity when the head (if any) fails the
predicate. -/
theorem dropWhile_eq_self_of_head {α : Type} (p : α → Bool) (l : List α)
    (h : ∀ c, l.head? = some c → p c = false) : l.dropWhile p = l := by
  cases l with
  | nil => rfl
  | cons a t =>
    have ha := h a rfl
    exact List.dropWhile_cons_of_neg (by simp [ha])

/-- A nonempty `dropWhile` keeps the last element of the original
list. -/
theorem getLast?_dropWhile {α : Type} (p : α → Bool) (l : List α)
    (h : l.dropWhile p ≠ []) :
    (l.dropWhile p).getLast? = l.getLast? := by
  conv_rhs => rw [← List.takeWhile_append_dropWhile p l]
  rw [List.getLast?_append]
  cases hgl : (l.dropWhile p).getLast? with
  | none => exact absurd (List.getLast?_eq_none_iff.mp hgl) h
  | some x => rfl

/-- A stripped string has no whitespace at either edge. -/
theorem noEdgeWs_pyStrip (w : PyStr) : NoEdgeWs (pyStrip w) := by
  unfold pyStrip NoEdgeWs
  constructor
  · intro c hc
    rw [List.head?_reverse] at hc
    have hne : (((w.dropWhile isWsCode).reverse).dropWhile isWsCode) ≠ [] := by
      intro hh
      rw [hh] at hc
      simp at hc
    rw [getLast?_dropWhile isWsCode _ hne, List.getLast?_reverse] at hc
    exact dropWhile_head_not isWsCode _ c hc
  · intro c hc
    rw [List.getLast?_reverse] at hc
    exact dropWhile_head_not isWsCode _ c hc

/-- A string with clean edges is untouched by `pyStrip`. -/
theorem pyStrip_eq_self (l : PyStr) (h : NoEdgeWs l) : pyStrip l = l := by
  unfold pyStrip
  rw [dropWhile_eq_self_of_head isWsCode l h.1]
  rw [dropWhile_eq_self_of_head isWsCode l.reverse
    (fun c hc => h.2 c (by rwa [List.head?_reverse] at hc))]
  exact List.reverse_reverse l

/-- Uppercasing a code point preserves whether it is whitespace. -/
theorem isWsCode_pyUpperCode (c : ℕ) :
    isWsCode (pyUpperCode c) = isWsCode c := by
  unfold pyUpperCode isWsCode
  split
  · rw [decide_eq_decide]
    omega
  · rfl

/-- Uppercasing one code point twice is the same as once. -/
theorem pyUpperCode_idem (c : ℕ) :
    pyUpperCode (pyUpperCode c) = pyUpperCode c := by
  unfold pyUpperCode
  split
  · split <;> omega
  · rfl

/-- `pyUpper` is idempotent. -/
theorem pyUpper_idem (l : PyStr) : pyUpper (pyUpper l) = pyUpper l := by
  unfold pyUpper
  rw [List.map_map]
  exact List.map_congr_left (fun a _ => pyUpperCode_idem a)

/-- Uppercasing preserves clean edges. -/
theorem noEdgeWs_pyUpper (l : PyStr) (h : NoEdgeWs l) :
    NoEdgeWs (pyUpper l) := by
  unfold pyUpper NoEdgeWs
  constructor
  · intro c hc
    rw [List.head?_map] at hc
    obtain ⟨d, hd, hdc⟩ := Option.map_eq_some'.mp hc
    subst hdc
    rw [isWsCode_pyUpperCode]
    exact h.1 d hd
  · intro c hc
    rw [List.getLast?_map] at hc
    obtain ⟨d, hd, hdc⟩ := Option.map_eq_some'.mp hc
    subst hdc
    rw [isWsCode_pyUpperCode]
    exact h.2 d hd

/-- Field lemma: the alert flag compares the unrounded fractional drop
against the absolute threshold. -/
theorem evalResult_is_alert (cfg : Config) (sym : PyStr)
    (data : List PricePoint) :
    (evalResult cfg sym data).is_alert =
      decide ((currentPrice data - recentHigh data) / recentHigh data ≤
        -|cfg.alert_threshold|) := rfl

/-- Field lemma: the reported percentage is the rounded one. -/
theorem evalResult_pct (cfg : Config) (sym : PyStr)
    (data : List PricePoint) :
    (evalResult cfg sym data).pct_from_high =
      round2 ((currentPrice data - recentHigh data) / recentHigh data * 100) :=
  rfl

/-- Field lemma: the reported date of the high. -/
theorem evalResult_date (cfg : Config) (sym : PyStr)
    (data : List PricePoint) :
    (evalResult cfg sym data).date_of_high = dateOfHigh data := rfl

/-- Field lemma: the RSI is computed over the close column. -/
theorem evalResult_rsi (cfg : Config) (sym : PyStr)
    (data : List PricePoint) :
    (evalResult cfg sym data).rsi =
      compute_rsi (data.map PricePoint.close) 14 := rfl

/-- Evaluation rule for `rhe` when the fractional part is below one
half. -/
theorem rhe_eq_low (q : ℚ) (n : ℤ) (h1 : (n : ℚ) ≤ q)
    (h2 : q - n < 1/2) : rhe q = n := by
  have hf : ⌊q⌋ = n := Int.floor_eq_iff.mpr ⟨h1, by linarith⟩
  unfold rhe
  simp only [hf]
  rw [if_pos h2]

/-- Evaluation rule for `round2` when `q * 100` has fractional part
below one half. -/
theorem round2_eq_low (q : ℚ) (n : ℤ) (h1 : (n : ℚ) ≤ q * 100)
    (h2 : q * 100 - n < 1/2) : round2 q = n / 100 := by
  unfold round2
  rw [rhe_eq_low (q * 100) n h1 h2]

/-- Zero average loss sends `compute_rsi` through the `replace(0, NA)`
path to `None`. -/
theorem compute_rsi_zero_loss (closes : List ℚ) (period : ℕ)
    (hlen : period + 1 ≤ closes.length)
    (hz : avg_loss closes period = 0) :
    compute_rsi closes period = none := by
  unfold compute_rsi
  rw [if_neg (by omega), if_pos hz]

/-- The constant close series has zero average loss. -/
theorem avg_loss_closesConst : avg_loss closesConst 14 = 0 := by
  simp [avg_loss, rsiWindow, rsiDeltas, closesConst]

/-! ### Claim theorems -/

/-- Claim C1 (amended): the alert decision compares the *unrounded*
fractional drop `(current_price - recent_high) / recent_high` against
`-abs(alert_threshold)`; boundary equality counts as an alert.  (The
claim as frozen ties `is_alert` to the *rounded* reported percentage,
which the code does not do — see the counterexample.) -/
theorem claim1_alert_uses_unrounded_pct
    (fetch : ℕ → PyStr → Option (List PricePoint)) (cfg : Config)
    (sym : PyStr) (pts : List PricePoint) (r : AlertResult)
    (hf : fetch cfg.lookback_days sym = some pts) (hne : pts ≠ [])
    (hr : check_stock_alert fetch cfg sym = some r) :
    r.is_alert = true ↔
      (currentPrice pts - recentHigh pts) / recentHigh pts ≤
        -|cfg.alert_threshold| := by
  rw [check_stock_alert_eq_some fetch cfg sym pts hf hne] at hr
  simp only [Option.some.injEq] at hr
  rw [← hr]
  simp [evalResult]

/-- Claim C1 counterexample: a history 4.9996% below its high.  The
percentage rounded to two decimals is exactly -5.00, so the claim's
condition `pct_from_high / 100 ≤ -alert_threshold` holds, yet the code
(comparing the unrounded fraction) sets `is_alert` to `false`. -/
theorem claim1_rounded_counterexample :
    (check_stock_alert fetchNearMiss cfgEx symAAA).map
      (fun r => (r.is_alert,
        decide (r.pct_from_high / 100 ≤ -cfgEx.alert_threshold))) =
    some (false, true) := by
  have hck := check_stock_alert_eq_some fetchNearMiss cfgEx symAAA
    ptsNearMiss rfl (by decide)
  have hcp : currentPrice ptsNearMiss = 950004 := rfl
  have hrh : recentHigh ptsNearMiss = 1000000 := rfl
  have hth : cfgEx.alert_threshold = 1/20 := rfl
  have habs : |cfgEx.alert_threshold| = 1/20 := by
    rw [hth]; exact abs_of_pos (by norm_num)
  have hpf : (evalResult cfgEx symAAA ptsNearMiss).pct_from_high = -5 := by
    rw [evalResult_pct, hcp, hrh]
    rw [round2_eq_low _ (-500) (by norm_num) (by norm_num)]
    norm_num
  have hia : (evalResult cfgEx symAAA ptsNearMiss).is_alert = false := by
    rw [evalResult_is_alert, hcp, hrh, habs, decide_eq_false_iff_not]
    norm_num
  rw [hck]
  simp only [Option.map_some']
  rw [hia, hpf, hth]
  simp only [Option.some.injEq, Prod.mk.injEq]
  refine ⟨trivial, ?_⟩
  rw [decide_eq_true_eq]
  norm_num

/-- Claim C1 witness: at the exact 5% boundary the amended condition
holds and the alert fires. -/
theorem claim1_witness :
    ((evalResult cfgEx symAAA ptsBoundary).is_alert = true ↔
      (currentPrice ptsBoundary - recentHigh ptsBoundary) /
        recentHigh ptsBoundary ≤ -|cfgEx.alert_threshold|) ∧
    (evalResult cfgEx symAAA ptsBoundary).is_alert = true := by
  have hmain := claim1_alert_uses_unrounded_pct fetchBoundary cfgEx symAAA
    ptsBoundary (evalResult cfgEx symAAA ptsBoundary) rfl (by decide)
    (check_stock_alert_eq_some fetchBoundary cfgEx symAAA ptsBoundary rfl
      (by decide))
  refine ⟨hmain, hmain.mpr ?_⟩
  have hcp : currentPrice ptsBoundary = 95 := rfl
  have hrh : recentHigh ptsBoundary = 100 := rfl
  have habs : |cfgEx.alert_threshold| = 1/20 := by
    rw [show cfgEx.alert_threshold = 1/20 from rfl]
    exact abs_of_pos (by norm_num)
  rw [hcp, hrh, habs]
  norm_num

/-- Claim C2 (amended): when the trailing-window average loss is exactly
zero, `compute_rsi` raises no division error — the function is total —
but it returns `none` (absent), not `100.0`: `avg_loss.replace(0, pd.NA)`
makes the final RSI NA and the `pd.notna` guard maps it to `None`. -/
theorem claim2_avg_loss_zero_returns_none (closes : List ℚ) (period : ℕ)
    (hlen : period + 1 ≤ closes.length)
    (hz : avg_loss closes period = 0) :
    compute_rsi closes period = none := by
  unfold compute_rsi
  rw [if_neg (by omega), if_pos hz]

/-- Claim C2 counterexample: a monotonically non-decreasing 15-point
close series has zero average loss, and `compute_rsi` returns `none` —
not `100.0` as the claim states. -/
theorem claim2_returns_100_counterexample :
    closesConst.length = 14 + 1 ∧ avg_loss closesConst 14 = 0 ∧
      compute_rsi closesConst 14 = none :=
  ⟨by decide, avg_loss_closesConst,
    compute_rsi_zero_loss closesConst 14 (by decide) avg_loss_closesConst⟩

/-- Claim C2 witness: the amended statement applied to the constant
series. -/
theorem claim2_witness : compute_rsi closesConst 14 = none :=
  claim2_avg_loss_zero_returns_none closesConst 14 (by decide)
    avg_loss_closesConst

/-- Claim C4: when the maximum high is attained more than once,
`date_of_high` is the date of the *last* occurrence: the history splits
as `l1 ++ x :: l2` where `x` attains the maximum, the reported date is
`x`'s, and no point after `x` attains the maximum. -/
theorem claim4_date_of_high_last_tie
    (fetch : ℕ → PyStr → Option (List PricePoint)) (cfg : Config)
    (sym : PyStr) (pts : List PricePoint) (r : AlertResult)
    (hf : fetch cfg.lookback_days sym = some pts) (hne : pts ≠ [])
    (hmult : 2 ≤ (pts.filter
      (fun p => decide (p.high = recentHigh pts))).length)
    (hr : check_stock_alert fetch cfg sym = some r) :
    ∃ l1 x l2, pts = l1 ++ x :: l2 ∧ x.high = recentHigh pts ∧
      r.date_of_high = x.date ∧
      ∀ y ∈ l2, y.high ≠ recentHigh pts := by
  rw [check_stock_alert_eq_some fetch cfg sym pts hf hne] at hr
  simp only [Option.some.injEq] at hr
  have hdoh : r.date_of_high = dateOfHigh pts := by
    rw [← hr, evalResult_date]
  have hne2 : pts.filter (fun p => decide (p.high = recentHigh pts)) ≠ [] := by
    intro hh
    rw [hh] at hmult
    simp at hmult
  cases hgl : (pts.filter
      (fun p => decide (p.high = recentHigh pts))).getLast? with
  | none => exact absurd (List.getLast?_eq_none_iff.mp hgl) hne2
  | some x =>
    obtain ⟨l1, l2, hsplit, hpx, hrest⟩ :=
      getLast?_filter_split _ pts x hgl
    refine ⟨l1, x, l2, hsplit, by simpa using hpx, ?_, ?_⟩
    · rw [hdoh]
      unfold dateOfHigh
      rw [hgl]
      rfl
    · intro y hy
      have := hrest y hy
      simpa using this

/-- Claim C4 witness: the four-day history with the high tied on dayA
and dayC; the reported date is dayC's. -/
theorem claim4_witness :
    ∃ l1 x l2, ptsEx = l1 ++ x :: l2 ∧ x.high = recentHigh ptsEx ∧
      (evalResult cfgEx symAAA ptsEx).date_of_high = x.date ∧
      ∀ y ∈ l2, y.high ≠ recentHigh ptsEx :=
  claim4_date_of_high_last_tie fetchEx cfgEx symAAA ptsEx
    (evalResult cfgEx symAAA ptsEx) rfl (by decide) (by decide)
    (check_stock_alert_eq_some fetchEx cfgEx symAAA ptsEx rfl (by decide))

/-- Claim C5: a close series with fewer than `period + 1` points makes
`compute_rsi` return `none` (no error is raised — the embedding is
total), and `check_stock_alert` still returns a full `AlertResult` with
`rsi` absent when the fetched history is nonempty but shorter than 15
points. -/
theorem claim5_short_series_rsi_absent :
    (∀ (closes : List ℚ) (period : ℕ), closes.length < period + 1 →
      compute_rsi closes period = none) ∧
    (∀ (fetch : ℕ → PyStr → Option (List PricePoint)) (cfg : Config)
      (sym : PyStr) (pts : List PricePoint),
      fetch cfg.lookback_days sym = some pts → pts ≠ [] →
      pts.length < 15 →
      ∃ r, check_stock_alert fetch cfg sym = some r ∧ r.rsi = none) := by
  constructor
  · exact compute_rsi_short
  · intro fetch cfg sym pts hf hne hlen
    refine ⟨evalResult cfg sym pts,
      check_stock_alert_eq_some fetch cfg sym pts hf hne, ?_⟩
    show compute_rsi (pts.map PricePoint.close) 14 = none
    apply compute_rsi_short
    rw [List.length_map]
    omega

/-- Claim C5 witness: a 2-point series and the 4-day AAA history. -/
theorem claim5_witness :
    compute_rsi [(1 : ℚ), 2] 14 = none ∧
    (∃ r, check_stock_alert fetchEx cfgEx symAAA = some r ∧
      r.rsi = none) :=
  ⟨claim5_short_series_rsi_absent.1 [(1 : ℚ), 2] 14 (by decide),
    claim5_short_series_rsi_absent.2 fetchEx cfgEx symAAA ptsEx
      (by decide) (by decide) (by decide)⟩

/-- Claim C3: `scan_portfolio` returns results in configured symbol
order (a subsequence of `config.stocks`, never re-sorted), silently
omits every symbol whose fetch or evaluation fails, makes `alerts`
exactly the `is_alert` filter of `results`, and (being a total
function) propagates no exception; scanning ["AAA", "BBB"] where BBB
has no data yields exactly the AAA entry. -/
theorem claim3_scan_fail_soft :
    (∀ (fetch : ℕ → PyStr → Option (List PricePoint))
      (smtp : EmailMessage → Option Unit) (cfg : Config) (now : ℕ),
      (scan_portfolio fetch smtp cfg now).results =
        cfg.stocks.filterMap (check_stock_alert fetch cfg) ∧
      (scan_portfolio fetch smtp cfg now).alerts =
        (scan_portfolio fetch smtp cfg now).results.filter
          (fun r => r.is_alert) ∧
      ((scan_portfolio fetch smtp cfg now).results.map
        AlertResult.symbol).Sublist cfg.stocks ∧
      (∀ sym ∈ cfg.stocks, check_stock_alert fetch cfg sym = none →
        sym ∉ (scan_portfolio fetch smtp cfg now).results.map
          AlertResult.symbol)) ∧
    (scan_portfolio fetchEx smtpOk cfgEx 0).results.map
      AlertResult.symbol = [symAAA] ∧
    (scan_portfolio fetchEx smtpOk cfgEx 0).alerts =
      (scan_portfolio fetchEx smtpOk cfgEx 0).results.filter
        (fun r => r.is_alert) := by
  have hres : ∀ (fetch : ℕ → PyStr → Option (List PricePoint))
      (smtp : EmailMessage → Option Unit) (cfg : Config) (now : ℕ),
      (scan_portfolio fetch smtp cfg now).results =
        cfg.stocks.filterMap (check_stock_alert fetch cfg) := by
    intro fetch smtp cfg now
    simp [scan_portfolio, scan_collect_spec]
  have halerts : ∀ (fetch : ℕ → PyStr → Option (List PricePoint))
      (smtp : EmailMessage → Option Unit) (cfg : Config) (now : ℕ),
      (scan_portfolio fetch smtp cfg now).alerts =
        (scan_portfolio fetch smtp cfg now).results.filter
          (fun r => r.is_alert) := by
    intro fetch smtp cfg now
    simp [scan_portfolio, scan_collect_spec]
  refine ⟨fun fetch smtp cfg now =>
    ⟨hres fetch smtp cfg now, halerts fetch smtp cfg now, ?_, ?_⟩, ?_, ?_⟩
  · rw [hres fetch smtp cfg now]
    exact symbols_sublist fetch cfg cfg.stocks
  · intro sym hmem hnone hin
    rw [hres fetch smtp cfg now] at hin
    obtain ⟨r, hrmem, hrsym⟩ := List.mem_map.mp hin
    obtain ⟨s2, hs2, hcheck⟩ := List.mem_filterMap.mp hrmem
    rw [symbol_of_check_eq_some fetch cfg s2 r hcheck] at hrsym
    subst hrsym
    rw [hnone] at hcheck
    cases hcheck
  · rw [hres fetchEx smtpOk cfgEx 0]
    have h1 : check_stock_alert fetchEx cfgEx symAAA =
        some (evalResult cfgEx symAAA ptsEx) :=
      check_stock_alert_eq_some fetchEx cfgEx symAAA ptsEx rfl (by decide)
    have h2 : check_stock_alert fetchEx cfgEx symBBB = none := rfl
    show ((([symAAA, symBBB] : List PyStr).filterMap
      (check_stock_alert fetchEx cfgEx)).map AlertResult.symbol) = [symAAA]
    rw [List.filterMap_cons_some h1, List.filterMap_cons_none h2]
    rfl
  · exact halerts fetchEx smtpOk cfgEx 0

/-- Claim C3 witness: BBB (whose fetch fails) is absent from the
scenario scan's results. -/
theorem claim3_witness :
    symBBB ∉ (scan_portfolio fetchEx smtpOk cfgEx 0).results.map
      AlertResult.symbol :=
  (claim3_scan_fail_soft.1 fetchEx smtpOk cfgEx 0).2.2.2 symBBB
    (by decide) rfl

/-- Claim C6: the scheduler is the two-state machine on the
`monitoring` flag: `start` from Stopped succeeds and moves to Running;
`start` while Running fails and leaves the state unchanged (also when
reached by a previous `start`); `stop` always moves to Stopped and
reports success; and `start` after `stop` succeeds again. -/
theorem claim6_scheduler_two_state (s : MonitorState) :
    start_monitoring ⟨false⟩ = (⟨true⟩, true) ∧
    start_monitoring ⟨true⟩ = (⟨true⟩, false) ∧
    start_monitoring (start_monitoring ⟨false⟩).1 =
      ((start_monitoring ⟨false⟩).1, false) ∧
    stop_monitoring s = (⟨false⟩, true) ∧
    start_monitoring (stop_monitoring s).1 = (⟨true⟩, true) :=
  ⟨rfl, rfl, rfl, rfl, rfl⟩

/-- Claim C7: `send_email_alert` receives the full alert batch as one
message exactly when the alert list is non-empty and email is enabled;
and because a notifier failure is caught (the transport oracle's
outcome is irrelevant), the snapshot — `last_scan_results` and
`last_scan_time` — is published either way. -/
theorem claim7_notifier_batch_and_publish
    (fetch : ℕ → PyStr → Option (List PricePoint))
    (smtp smtp2 : EmailMessage → Option Unit) (cfg : Config) (now : ℕ) :
    ((scan_portfolio fetch smtp cfg now).email_invoked =
        some (scan_portfolio fetch smtp cfg now).alerts ↔
      ((scan_portfolio fetch smtp cfg now).alerts ≠ [] ∧
        cfg.email_settings.enabled = true)) ∧
    ((scan_portfolio fetch smtp cfg now).email_invoked =
        some (scan_portfolio fetch smtp cfg now).alerts ∨
      (scan_portfolio fetch smtp cfg now).email_invoked = none) ∧
    (scan_portfolio fetch smtp cfg now).last_scan_results =
      (scan_portfolio fetch smtp cfg now).results ∧
    (scan_portfolio fetch smtp cfg now).last_scan_time = some now ∧
    (scan_portfolio fetch smtp2 cfg now).results =
      (scan_portfolio fetch smtp cfg now).results ∧
    (scan_portfolio fetch smtp2 cfg now).alerts =
      (scan_portfolio fetch smtp cfg now).alerts ∧
    (scan_portfolio fetch smtp2 cfg now).last_scan_results =
      (scan_portfolio fetch smtp cfg now).last_scan_results ∧
    (scan_portfolio fetch smtp2 cfg now).last_scan_time =
      (scan_portfolio fetch smtp cfg now).last_scan_time := by
  rcases h : scan_collect fetch cfg cfg.stocks with ⟨results, alerts⟩
  refine ⟨?_, ?_, ?_⟩
  · simp only [scan_portfolio, h]
    cases alerts with
    | nil => cases henb : cfg.email_settings.enabled <;> simp [henb]
    | cons a as => cases henb : cfg.email_settings.enabled <;> simp [henb]
  · simp only [scan_portfolio, h]
    cases alerts with
    | nil => cases henb : cfg.email_settings.enabled <;> simp [henb]
    | cons a as => cases henb : cfg.email_settings.enabled <;> simp [henb]
  · simp [scan_portfolio, h]

/-- Claim C8 (amended): every symbol stored by `update_stocks` is
non-empty, invariant under upper-casing, and fully whitespace-trimmed
(hence non-empty after trimming) — but the stored list is *not*
deduplicated: a ticker entered twice is stored twice (see the
counterexample). -/
theorem claim8_symbols_normalized (text : PyStr) (s : PyStr)
    (hs : s ∈ update_stocks text) :
    s ≠ [] ∧ pyUpper s = s ∧ pyStrip s = s := by
  unfold update_stocks at hs
  rw [List.mem_filterMap] at hs
  obtain ⟨w, hw, hsw⟩ := hs
  by_cases h : pyStrip w ≠ []
  · rw [if_pos h] at hsw
    simp only [Option.some.injEq] at hsw
    subst hsw
    refine ⟨?_, pyUpper_idem _, pyStrip_eq_self _
      (noEdgeWs_pyUpper _ (noEdgeWs_pyStrip w))⟩
    intro hnil
    exact h (List.map_eq_nil_iff.mp hnil)
  · rw [if_neg h] at hsw
    cases hsw

/-- Claim C8 counterexample: the form input "AAPL,AAPL" is stored as
two identical entries — `update_stocks` keeps duplicates, so the
configured symbols are not a set. -/
theorem claim8_duplicates_counterexample :
    update_stocks stocksTextDup = [strAAPL, strAAPL] ∧
    ¬(update_stocks stocksTextDup).Nodup := by decide

/-- Claim C8 witness: the normalization invariants at the stored entry
"AAPL". -/
theorem claim8_witness :
    strAAPL ≠ [] ∧ pyUpper strAAPL = strAAPL ∧ pyStrip strAAPL = strAAPL :=
  claim8_symbols_normalized stocksTextDup strAAPL (by decide)

/-- Claim C9: `check_stock_alert` takes the absolute value of the
configured threshold, so any threshold `t` — including a negative or
zero one — produces exactly the same `AlertResult` as `|t|`. -/
theorem claim9_threshold_abs_invariant
    (fetch : ℕ → PyStr → Option (List PricePoint)) (cfg : Config)
    (t : ℚ) (sym : PyStr) :
    check_stock_alert fetch { cfg with alert_threshold := t } sym =
      check_stock_alert fetch { cfg with alert_threshold := |t| } sym := by
  unfold check_stock_alert get_stock_data
  cases hf : fetch cfg.lookback_days sym with
  | none => rfl
  | some data =>
    by_cases hd : data = []
    · simp [hd]
    · simp only [hd, if_neg]
      simp [evalResult, abs_abs, hd]

/-- Claim C10: an out-of-range index (negative or past the end) leaves
the thesis entries unchanged and does not invoke `save_config`, for
both the update and the delete handlers (the `Bool` component records
whether `save_config` ran). -/
theorem claim10_invalid_index_no_change (entries : List ThesisEntry)
    (index : ℤ) (ticker0 thesis0 trigger0 : PyStr)
    (h : ¬(0 ≤ index ∧ index < (entries.length : ℤ))) :
    update_thesis entries index ticker0 thesis0 trigger0 =
      (entries, false) ∧
    delete_thesis entries index = (entries, false) := by
  constructor
  · unfold update_thesis
    by_cases ht : pyUpper (pyStrip ticker0) = []
    · rw [if_pos ht]
    · rw [if_neg ht, if_neg h]
  · unfold delete_thesis
    rw [if_neg h]

/-- Claim C10 witness: index 5 on a one-entry list. -/
theorem claim10_witness :
    update_thesis [entryEx] 5 [65] [] [] = ([entryEx], false) ∧
    delete_thesis [entryEx] 5 = ([entryEx], false) :=
  claim10_invalid_index_no_change [entryEx] 5 [65] [] [] (by decide)
